import Mathlib

/-!
Verification development for the MongoDB data-freshness report generator
(`table_data_vatify.py`, `validate_today_data.py`,
`test_special_validation_message.py`).

The embedding models instants as microseconds since the Unix epoch (`Int`).
The fixed reporting timezone is Asia/Shanghai (CST), a constant UTC+8 offset
(no DST since 1991).  A civil date is represented by its day index, i.e. the
number of whole days between the Unix epoch and the date's midnight in the
relevant timezone.  Python floor division and `datetime` arithmetic
correspond to `Int` division (`Int.ediv`, which floors for the positive
divisors used here).
-/

namespace TuzhanData

/-! ## Time model -/

def usecPerSecond : Int := 1000000

def usecPerHour : Int := 3600 * 1000000

def usecPerDay : Int := 86400 * 1000000

/-- Asia/Shanghai ("CST" in the source comments), a fixed UTC+8 offset. -/
def cstOffset : Int := 8 * usecPerHour

/-- Calendar day index of instant `t` rendered in a timezone `off`
microseconds east of UTC. -/
def civilDate (t off : Int) : Int := (t + off) / usecPerDay

/-- Day index of the UTC calendar date of `t`. -/
def civilDateUTC (t : Int) : Int := civilDate t 0

/-- Day index of the Asia/Shanghai calendar date of `t`. -/
def civilDateCST (t : Int) : Int := civilDate t cstOffset

/-- `table_data_vatify.py` line 803: the general (per-chain) anomaly check
formats the normalized timestamp with `max_time.strftime` on the
UTC-localized datetime object, so the rendered calendar date is the UTC
date of the instant. -/
def generalPathCivilDate (t : Int) : Int := civilDateUTC t

/-- `table_data_vatify.py` lines 282-288 (and `validate_today_data.py`
lines 108-114): the strict validator converts the latest timestamp with
`astimezone(cst_tz)` before taking `.date()`, so the calendar date is the
Asia/Shanghai date of the instant. -/
def strictPathCivilDate (t : Int) : Int := civilDateCST t

/-- `table_data_vatify.py` lines 630-635: `max_time_cst =
max_create_time.astimezone(cst_tz)` then `replace(minute=0, second=0,
microsecond=0)`: the instant of the CST wall clock rounded down to the
hour. -/
def roundDownToHourCST (t : Int) : Int :=
  (t + cstOffset) - (t + cstOffset) % usecPerHour - cstOffset

/-- `table_data_vatify.py` lines 211-216 (and `validate_today_data.py`
lines 47-52): `today_start = now_cst.replace(hour=0, minute=0, second=0,
microsecond=0)` converted to UTC (`astimezone` does not change the
instant). -/
def todayStartUTC (now : Int) : Int :=
  (now + cstOffset) - (now + cstOffset) % usecPerDay - cstOffset

/-- `table_data_vatify.py` line 213: `today_end = now_cst.replace(hour=23,
minute=59, second=59, microsecond=999999)`, i.e. one microsecond before
the next CST midnight. -/
def todayEndUTC (now : Int) : Int := todayStartUTC now + usecPerDay - 1

/-! ## Storage model

A collection is a list of documents; only the two fields the program ever
touches are modelled.  A stored `create_time` can be a BSON datetime, a
number, or a string (`table_data_vatify.py` lines 605-623 dispatch on
exactly these types); a record may also lack the field entirely
(`'create_time' in latest_doc` checks). The default pymongo configuration
returns naive datetimes denoting UTC instants, and both consumers apply
`pytz.utc.localize` to naive values, so a stored datetime is represented
directly by its UTC instant. -/

inductive StoredVal
  | dt (t : Int)
  | num (n : Int)
  | str (s : String)
deriving DecidableEq

structure Record where
  chain_id : Int
  create_time : Option StoredVal
deriving DecidableEq

/-- Lexicographic comparison of character lists by code point, used for the
BSON ordering of string values. -/
def charListLt : List Char → List Char → Bool
  | [], [] => false
  | [], _ :: _ => true
  | _ :: _, [] => false
  | a :: as, b :: bs =>
    if a.toNat < b.toNat then true
    else if b.toNat < a.toNat then false
    else charListLt as bs

/-- BSON type rank used by MongoDB when sorting mixed types: a missing
field sorts below numbers, numbers below strings, strings below dates. -/
def bsonRank : Option StoredVal → Nat
  | none => 0
  | some (StoredVal.num _) => 1
  | some (StoredVal.str _) => 2
  | some (StoredVal.dt _) => 3

/-- Strict BSON order on optional `create_time` values. -/
def bsonLt (a b : Option StoredVal) : Bool :=
  if bsonRank a < bsonRank b then true
  else if bsonRank b < bsonRank a then false
  else
    match a, b with
    | some (StoredVal.num x), some (StoredVal.num y) => decide (x < y)
    | some (StoredVal.str x), some (StoredVal.str y) => charListLt x.toList y.toList
    | some (StoredVal.dt x), some (StoredVal.dt y) => decide (x < y)
    | _, _ => false

/-- Documents of one collection matching the equality filter
`{"chain_id": c}`. -/
def chainRecords (db : List Record) (c : Int) : List Record :=
  db.filter (fun r => r.chain_id == c)

/-- `count_documents({"chain_id": chain_id_long})`. -/
def chainCount (db : List Record) (c : Int) : Nat :=
  db.countP (fun r => r.chain_id == c)

/-- `find_one({"chain_id": c}, projection=["create_time"],
sort=[("create_time", DESCENDING)])`: the matching document whose
`create_time` is greatest in BSON order (missing fields sort lowest). -/
def findLatestDoc (db : List Record) (c : Int) : Option Record :=
  (chainRecords db c).foldl
    (fun best r =>
      match best with
      | none => some r
      | some b => if bsonLt b.create_time r.create_time then some r else some b)
    none

/-- The `create_time` of the latest matching document, when the document
exists and carries the field (`latest_doc and 'create_time' in
latest_doc`). -/
def findLatestCreateTime (db : List Record) (c : Int) : Option StoredVal :=
  match findLatestDoc db c with
  | none => none
  | some d => d.create_time

/-- `table_data_vatify.py` lines 637-644: `count_documents({"chain_id": c,
"create_time": {"$gt": rounded_hour}})`.  The bound is a datetime, so the
range condition matches only date-typed values. -/
def windowedCount (db : List Record) (c : Int) (rounded : Int) : Nat :=
  db.countP (fun r =>
    r.chain_id == c &&
      match r.create_time with
      | some (StoredVal.dt t) => decide (rounded < t)
      | _ => false)

/-- `table_data_vatify.py` lines 248-260 (and `validate_today_data.py`
lines 73-85): `count_documents({"chain_id": c, "create_time": {"$gte":
today_start_utc, "$lte": today_end_utc}})`; datetime bounds match only
date-typed values. -/
def todayCount (db : List Record) (c : Int) (now : Int) : Nat :=
  db.countP (fun r =>
    r.chain_id == c &&
      match r.create_time with
      | some (StoredVal.dt t) =>
        decide (todayStartUTC now ≤ t) && decide (t ≤ todayEndUTC now)
      | _ => false)

/-! ## Chain-id parsing

`int(chain_id)` in Python: an optional sign followed by a non-empty digit
string (surrounding whitespace and digit-group underscores, which never
occur in the configured ids, are not modelled). -/

def digitVal (c : Char) : Option Nat :=
  if c.isDigit then some (c.toNat - 48) else none

def digitsToNat : List Char → Nat → Option Nat
  | [], acc => some acc
  | c :: cs, acc =>
    match digitVal c with
    | some d => digitsToNat cs (acc * 10 + d)
    | none => none

/-- `int(chain_id)`: `none` models the `ValueError` raised on a
non-numeric id. -/
def parseChainId (s : String) : Option Int :=
  match s.toList with
  | [] => none
  | c :: cs =>
    if c = ('-') then
      match cs with
      | [] => none
      | _ => (digitsToNat cs 0).map (fun n => -(n : Int))
    else (digitsToNat (c :: cs) 0).map (fun n => (n : Int))

/-! ## String timestamp parsing

`table_data_vatify.py` lines 611-623 try, in order, the `strptime` formats
`'%Y-%m-%dT%H:%M:%S.%fZ'`, `'%Y-%m-%d %H:%M:%S'` and
`'%Y-%m-%dT%H:%M:%S'`; the first successful parse wins.  CPython's
`strptime` matches `%Y` as exactly four digits, `%m`/`%d`/`%H`/`%M`/`%S`
as one or two digits, and `%f` as one to six digits (right-padded to
microseconds), validating field ranges including the day-of-month against
the month and leap years.  The parsed value is a naive wall-clock time,
subsequently localized as UTC (line 628), so the parsers below return the
corresponding UTC epoch instant directly. -/

def readFixed : Nat → Nat → List Char → Option (Nat × List Char)
  | 0, acc, cs => some (acc, cs)
  | _ + 1, _, [] => none
  | n + 1, acc, c :: cs =>
    match digitVal c with
    | some d => readFixed n (acc * 10 + d) cs
    | none => none

/-- Read one or two digits greedily, as the `strptime` patterns for
two-digit fields do. -/
def readUpTo2 : List Char → Option (Nat × List Char)
  | [] => none
  | c1 :: rest =>
    match digitVal c1 with
    | none => none
    | some d1 =>
      match rest with
      | c2 :: rest2 =>
        match digitVal c2 with
        | some d2 => some (d1 * 10 + d2, rest2)
        | none => some (d1, rest)
      | [] => some (d1, [])

/-- Read up to `fuel` further digits for `%f`, returning the accumulated
value, the number of digits consumed, and the rest of the input. -/
def readFracAux : Nat → Nat → Nat → List Char → Nat × Nat × List Char
  | 0, acc, k, cs => (acc, k, cs)
  | _ + 1, acc, k, [] => (acc, k, [])
  | n + 1, acc, k, c :: cs =>
    match digitVal c with
    | some d => readFracAux n (acc * 10 + d) (k + 1) cs
    | none => (acc, k, c :: cs)

def expectChar (ch : Char) : List Char → Option (List Char)
  | [] => none
  | c :: cs => if c = ch then some cs else none

def isLeapYear (y : Nat) : Bool :=
  (y % 4 == 0 && y % 100 != 0) || (y % 400 == 0)

def daysInMonth (y m : Nat) : Nat :=
  if m = 2 then (if isLeapYear y then 29 else 28)
  else if m = 4 ∨ m = 6 ∨ m = 9 ∨ m = 11 then 30
  else 31

/-- Days between the Unix epoch and the civil date `y-m-d` (proleptic
Gregorian, Hinnant's `days_from_civil` algorithm). -/
def daysFromCivil (y m d : Nat) : Int :=
  let yAdj : Int := if m ≤ 2 then (y : Int) - 1 else (y : Int)
  let era : Int := yAdj / 400
  let yoe : Int := yAdj - era * 400
  let mp : Int := ((m : Int) + 9) % 12
  let doy : Int := (153 * mp + 2) / 5 + (d : Int) - 1
  let doe : Int := yoe * 365 + yoe / 4 - yoe / 100 + doy
  era * 146097 + doe - 719468

/-- Validate the parsed fields as `strptime` does and assemble the naive
wall-clock value, in microseconds since the epoch of the same clock. -/
def mkNaiveMicros (y m d h mi s f : Nat) : Option Int :=
  if 1 ≤ m ∧ m ≤ 12 ∧ 1 ≤ d ∧ d ≤ daysInMonth y m ∧ h ≤ 23 ∧ mi ≤ 59 ∧
     s ≤ 59 ∧ f ≤ 999999 then
    some (daysFromCivil y m d * usecPerDay + (h : Int) * usecPerHour +
      (mi : Int) * 60 * usecPerSecond + (s : Int) * usecPerSecond + (f : Int))
  else none

def parseYmd (cs : List Char) : Option (Nat × Nat × Nat × List Char) := do
  let (y, cs1) ← readFixed 4 0 cs
  let cs2 ← expectChar ('-') cs1
  let (m, cs3) ← readUpTo2 cs2
  let cs4 ← expectChar ('-') cs3
  let (d, cs5) ← readUpTo2 cs4
  pure (y, m, d, cs5)

def parseHms (cs : List Char) : Option (Nat × Nat × Nat × List Char) := do
  let (h, cs1) ← readUpTo2 cs
  let cs2 ← expectChar (':') cs1
  let (mi, cs3) ← readUpTo2 cs2
  let cs4 ← expectChar (':') cs3
  let (s, cs5) ← readUpTo2 cs4
  pure (h, mi, s, cs5)

/-- `'%Y-%m-%dT%H:%M:%S.%fZ'` (the trailing `Z` is a literal character;
the parsed value stays naive). -/
def parseFormat1 (str : String) : Option Int := do
  let (y, m, d, cs1) ← parseYmd str.toList
  let cs2 ← expectChar ('T') cs1
  let (h, mi, s, cs3) ← parseHms cs2
  let cs4 ← expectChar ('.') cs3
  let (frac, k, cs5) := readFracAux 6 0 0 cs4
  if k = 0 then none
  else do
    let cs6 ← expectChar ('Z') cs5
    match cs6 with
    | [] => mkNaiveMicros y m d h mi s (frac * 10 ^ (6 - k))
    | _ => none

/-- `'%Y-%m-%d %H:%M:%S'`. -/
def parseFormat2 (str : String) : Option Int := do
  let (y, m, d, cs1) ← parseYmd str.toList
  let cs2 ← expectChar (' ') cs1
  let (h, mi, s, cs3) ← parseHms cs2
  match cs3 with
  | [] => mkNaiveMicros y m d h mi s 0
  | _ => none

/-- `'%Y-%m-%dT%H:%M:%S'`. -/
def parseFormat3 (str : String) : Option Int := do
  let (y, m, d, cs1) ← parseYmd str.toList
  let cs2 ← expectChar ('T') cs1
  let (h, mi, s, cs3) ← parseHms cs2
  match cs3 with
  | [] => mkNaiveMicros y m d h mi s 0
  | _ => none

/-- The ordered list of formats of `table_data_vatify.py` lines 612-616. -/
def timestampFormats : List (String → Option Int) :=
  [parseFormat1, parseFormat2, parseFormat3]

/-- The `for fmt in formats: try ... break except: continue` loop (lines
617-623): the first format that parses wins. -/
def firstSuccess (fs : List (String → Option Int)) (s : String) : Option Int :=
  match fs with
  | [] => none
  | f :: rest =>
    match f s with
    | some t => some t
    | none => firstSuccess rest s

def parseFormats (s : String) : Option Int := firstSuccess timestampFormats s

/-! ## General-path partition evaluation

`generate_report` in `table_data_vatify.py`, lines 574-724: one iteration
of the per-chain loop inside the per-collection loop.  Storage failures
are injected through the `findFails` / `countFails` flags (the latest-
record query raising, resp. the windowed `count_documents` raising); the
evaluator also counts how many storage calls were issued, so that the
"zero calls on an invalid id" property is expressible. -/

/-- Normalization of a stored `create_time` value, lines 604-630.
A datetime is used as is (naive values are localized as UTC, which keeps
the instant).  A numeric value goes through `datetime.fromtimestamp`,
which renders the epoch value `n` (seconds) on the process-local wall
clock (`localOff` east of UTC) and yields a naive datetime that is then
localized as UTC, shifting the instant by `localOff`.  A string is tried
against the ordered format list; an unmatched string stays a `str`, and
the subsequent `.tzinfo` attribute access raises, which the except branch
at line 653 turns into `None`. -/
def processTime (v : StoredVal) (localOff : Int) : Option Int :=
  match v with
  | StoredVal.dt t => some t
  | StoredVal.num n => some (n * usecPerSecond + localOff)
  | StoredVal.str s => parseFormats s

/-- One row of the `results` list: either a normal row
`[timestamp, collection, chain_id, record_count, max_time]` (line 695) or
the error row written by the per-chain exception handler (lines 713-719),
whose count field is the string `"ERROR: ..."`. -/
inductive RowOutcome
  | ok (record_count : Nat) (max_time : Option Int)
  | err
deriving DecidableEq

structure GeneralEval where
  outcome : RowOutcome
  calls : Nat
deriving DecidableEq

/-- One (collection, chain) iteration of `generate_report`. -/
def evalGeneral (db : List Record) (chainIdStr : String) (localOff : Int)
    (findFails countFails : Bool) : GeneralEval :=
  match parseChainId chainIdStr with
  | none =>
    -- line 584: `raise ValueError` before any query; caught at line 708.
    { outcome := RowOutcome.err, calls := 0 }
  | some c =>
    if findFails then
      -- `find_one` (line 587) raises; caught by the handler at line 708.
      { outcome := RowOutcome.err, calls := 1 }
    else
      match findLatestCreateTime db c with
      | none =>
        -- lines 657-681: no document (or no `create_time` field); the
        -- diagnostic branch issues one more count and, when it is
        -- positive, one more `find_one`.
        { outcome := RowOutcome.ok 0 none,
          calls := 2 + (if 0 < chainCount db c then 1 else 0) }
      | some v =>
        match processTime v localOff with
        | none =>
          -- lines 653-656: date processing failed; the count at line 644
          -- is never reached.
          { outcome := RowOutcome.ok 0 none, calls := 1 }
        | some t =>
          let cnt :=
            if countFails then 0
            else windowedCount db c (roundDownToHourCST t)
          { outcome := RowOutcome.ok cnt (some t), calls := 2 }

/-- The full collections x chains iteration of `generate_report`; the
failure configuration may differ per (collection, chain) pair. -/
def generalBatch (colls : List (String × List Record)) (chains : List String)
    (localOff : Int) (ff cf : String → String → Bool) : List GeneralEval :=
  (colls.map (fun col =>
    chains.map (fun ch =>
      evalGeneral col.2 ch localOff (ff col.1 ch) (cf col.1 ch)))).flatten

/-! ## Strict (same-day) validation

`validate_today_create_time` in `validate_today_data.py` lines 28-157 and
the per-collection body of `validate_special_chain_today_data` in
`table_data_vatify.py` lines 197-321 implement the same logic; both are
modelled by `validateCollection`.  Keys that a result dictionary omits are
modelled by the default its consumers read them with
(`.get('is_latest_today', False)`, `.get('today_count', 0)`, ...). -/

inductive ErrKind
  | invalidChainId
  | queryError
deriving DecidableEq

structure CollectionResult where
  success : Bool
  error : Option ErrKind
  today_count : Nat
  total_count : Nat
  latest_create_time : Option Int
  is_latest_today : Bool
deriving DecidableEq

/-- Extract the latest timestamp exactly as the strict path does: only a
value that `isinstance(latest_create_time, datetime)` accepts is
processed; numbers and strings leave the latest-timestamp display at
"no data" and `is_today` at `False` (lines 273-288). -/
def latestDt : Option StoredVal → Option Int
  | some (StoredVal.dt t) => some t
  | _ => none

/-- Lines 286-288 / 112-114: `is_today = (latest_date == today_date)`,
comparing Asia/Shanghai civil dates; `False` when no datetime latest
exists. -/
def strictIsToday (lt : Option Int) (now : Int) : Bool :=
  match lt with
  | some t => decide (civilDateCST t = civilDateCST now)
  | none => false

/-- One strict validation of one collection for one chain id.
`storageFails` injects a storage error into the query block; the whole
block sits in one `try`, whose handler returns an error result with both
counts zeroed (lines 313-321 / 147-157).  The second component counts
storage calls issued. -/
def validateCollection (db : List Record) (chainIdStr : String) (now : Int)
    (storageFails : Bool) : CollectionResult × Nat :=
  match parseChainId chainIdStr with
  | none =>
    ({ success := false, error := some ErrKind.invalidChainId,
       today_count := 0, total_count := 0, latest_create_time := none,
       is_latest_today := false }, 0)
  | some c =>
    if storageFails then
      ({ success := false, error := some ErrKind.queryError,
         today_count := 0, total_count := 0, latest_create_time := none,
         is_latest_today := false }, 1)
    else
      ({ success := decide (0 < todayCount db c now)
            && strictIsToday (latestDt (findLatestCreateTime db c)) now,
         error := none,
         today_count := todayCount db c now,
         total_count := chainCount db c,
         latest_create_time := latestDt (findLatestCreateTime db c),
         is_latest_today := strictIsToday (latestDt (findLatestCreateTime db c)) now },
       3)

/-- `validate_all_chains_today_data` (`validate_today_data.py` lines
160-191): every collection, every chain, appending one result each. -/
def validateAllChainsTodayData (colls : List (String × List Record))
    (chains : List String) (now : Int) : List CollectionResult :=
  (colls.map (fun col =>
    chains.map (fun ch => (validateCollection col.2 ch now false).1))).flatten

/-! ## Strict-result classification and notification totals

`format_special_validation_message` (`table_data_vatify.py` lines
360-440) and `format_validation_report` (`validate_today_data.py` lines
215-291) share the same per-result problem chain. -/

inductive ProblemCategory
  | noProblem
  | queryError
  | noTodayData
  | latestNotToday
  | dataAnomaly
deriving DecidableEq

/-- The problem chain at `table_data_vatify.py` lines 411-419 (identical
at `validate_today_data.py` lines 266-274): `if 'error' in result`, `elif
today_count == 0`, `elif not is_latest_today`, `else`. -/
def problemOf (r : CollectionResult) : ProblemCategory :=
  if r.error.isSome then ProblemCategory.queryError
  else if r.today_count = 0 then ProblemCategory.noTodayData
  else if r.is_latest_today = false then ProblemCategory.latestNotToday
  else ProblemCategory.dataAnomaly

/-- Overall classification as the message renders it: only results whose
`success` flag is false are listed as problems (line 398 / 251); a
successful result surfaces no category. -/
def classifyStrict (r : CollectionResult) : ProblemCategory :=
  if r.success then ProblemCategory.noProblem else problemOf r

/-- Modelled from the spec wording of claim C2, for comparison with the
code's classification: first match wins among `QueryError` when the error
kind is set, `NoTodayData` when the strict today-count is zero,
`LatestNotToday` when the latest timestamp is absent or its civil date
(in the fixed reporting timezone) differs from the reference day, and
`None` otherwise. -/
def specClassifyStrict (r : CollectionResult) (today : Int) : ProblemCategory :=
  if r.error.isSome then ProblemCategory.queryError
  else if r.today_count = 0 then ProblemCategory.noTodayData
  else
    match r.latest_create_time with
    | none => ProblemCategory.latestNotToday
    | some t =>
      if civilDateCST t = today then ProblemCategory.noProblem
      else ProblemCategory.latestNotToday

/-- `table_data_vatify.py` line 383 (and the test copy at
`test_special_validation_message.py` line 23): the reported total is
`sum(result.get('today_count', 0) for result in validation_results if
result.get('success', False))`. -/
def specialTotalRecords (rs : List CollectionResult) : Nat :=
  rs.foldl (fun acc r => if r.success then acc + r.today_count else acc) 0

/-! ## General-path anomaly aggregation

`generate_report` lines 775-832: the rows are grouped per chain (rows
whose count field is not an `int`, i.e. error rows, are skipped at line
778 and again at line 796), and each remaining row with a datetime
`max_time` whose rendered date differs from yesterday's date contributes
one anomaly entry.  After the normalization at lines 604-656 a row's
`max_time` is either a (UTC-aware) datetime or `None`, so the string
branch at lines 812-821 is unreachable for rows this program produced and
the row type carries `Option Int`. -/

structure ResultRow where
  collection : String
  chain_id : String
  outcome : RowOutcome
deriving DecidableEq

structure Anomaly where
  collection : String
  max_time : Int
deriving DecidableEq

/-- Dictionary lookup with fallback to the key itself:
`mappings.get(name, name)`. -/
def lookupD (m : List (String × String)) (k : String) : String :=
  match m.lookup k with
  | some v => v
  | none => k

/-- One step of the anomaly-detection loop (lines 795-821). -/
def anomalyStep (yesterday : Int) (collMap : List (String × String))
    (acc : List Anomaly) (row : ResultRow) : List Anomaly :=
  match row.outcome with
  | RowOutcome.err => acc
  | RowOutcome.ok _ none => acc
  | RowOutcome.ok _ (some t) =>
    if generalPathCivilDate t = yesterday then acc
    else
      acc ++ [{ collection := lookupD collMap row.collection,
                max_time := generalPathCivilDate t }]

/-- The anomaly list built for one chain's rows. -/
def detectAnomalies (rows : List ResultRow) (yesterday : Int)
    (collMap : List (String × String)) : List Anomaly :=
  rows.foldl (anomalyStep yesterday collMap) []

/-- `format_chain_markdown_message` lines 462-477: the message shows the
all-fresh success block exactly when the anomaly list is empty. -/
def formatChainMessageIsSuccess (anomalies : List Anomaly) : Bool :=
  anomalies.isEmpty

/-- The row the pipeline itself produces for one (collection, chain)
pair. -/
def rowFromEval (coll ch : String) (db : List Record) (localOff : Int)
    (ff cf : Bool) : ResultRow :=
  { collection := coll, chain_id := ch,
    outcome := (evalGeneral db ch localOff ff cf).outcome }

/-- Modelled from the spec wording of claims C1 and C4: under the General
policy a row evaluated with a query error is `QueryError`; a row whose
latest timestamp is absent, or whose civil date differs from the expected
day (`referenceToday - 1`), is `LatestNotToday`; otherwise there is no
problem.  The date is the one the code renders for the row. -/
def specClassifyGeneral (row : ResultRow) (yesterday : Int) : ProblemCategory :=
  match row.outcome with
  | RowOutcome.err => ProblemCategory.queryError
  | RowOutcome.ok _ none => ProblemCategory.latestNotToday
  | RowOutcome.ok _ (some t) =>
    if generalPathCivilDate t = yesterday then ProblemCategory.noProblem
    else ProblemCategory.latestNotToday

/-- Whether the code's loop emits an anomaly for a row: the row is a
normal row, its timestamp is present, and the rendered date differs from
yesterday's. -/
def rowAnomalous (row : ResultRow) (yesterday : Int) : Bool :=
  match row.outcome with
  | RowOutcome.err => false
  | RowOutcome.ok _ none => false
  | RowOutcome.ok _ (some t) => decide (generalPathCivilDate t ≠ yesterday)

/-- The date the anomaly entry records for a row (meaningful for rows with
a present timestamp). -/
def rowMaxDate (row : ResultRow) : Int :=
  match row.outcome with
  | RowOutcome.ok _ (some t) => generalPathCivilDate t
  | _ => 0

/-- The anomaly entry built from a row: table id resolved through the
collection-name map, falling back to the raw id. -/
def anomalyOf (collMap : List (String × String)) (row : ResultRow) : Anomaly :=
  { collection := lookupD collMap row.collection, max_time := rowMaxDate row }

/-! ## Helper lemmas -/

/-- Unfolding the anomaly-detection fold: the produced list is the
mapped filter of the rows, appended after the accumulator. -/
theorem foldl_anomalyStep (y : Int) (m : List (String × String)) :
    ∀ (rows : List ResultRow) (acc : List Anomaly),
      rows.foldl (anomalyStep y m) acc
        = acc ++ (rows.filter (fun r => rowAnomalous r y)).map (anomalyOf m)
  | [], acc => by simp
  | row :: rows, acc => by
    rw [List.foldl_cons, foldl_anomalyStep y m rows]
    cases hrow : row.outcome with
    | err =>
      simp [anomalyStep, rowAnomalous, hrow, List.filter_cons]
    | ok n mt =>
      cases mt with
      | none => simp [anomalyStep, rowAnomalous, hrow, List.filter_cons]
      | some t =>
        by_cases hd : generalPathCivilDate t = y
        · simp [anomalyStep, rowAnomalous, hrow, hd, List.filter_cons]
        · simp [anomalyStep, rowAnomalous, anomalyOf, rowMaxDate, hrow, hd,
            List.filter_cons, List.append_assoc]

/-- First-success semantics of the ordered parser list: if every parser
before index `i` fails on `s` and the parser at `i` succeeds, the loop
returns that parser's result. -/
theorem firstSuccess_of_get :
    ∀ (fs : List (String → Option Int)) (s : String) (i : Nat)
      (hi : i < fs.length) (t : Int),
      (∀ j (hj : j < fs.length), j < i → fs.get ⟨j, hj⟩ s = none) →
      fs.get ⟨i, hi⟩ s = some t → firstSuccess fs s = some t
  | [], _, i, hi, _, _, _ => by simp at hi
  | f :: rest, s, 0, _, t, _, hget => by
    simp only [List.get] at hget
    simp [firstSuccess, hget]
  | f :: rest, s, i + 1, hi, t, hnone, hget => by
    have h0 : f s = none := hnone 0 (by simp) (Nat.succ_pos i)
    simp only [firstSuccess, h0]
    exact firstSuccess_of_get rest s i (by simpa using hi) t
      (fun j hj hlt => by
        have := hnone (j + 1) (by simpa using Nat.succ_lt_succ hj)
          (Nat.succ_lt_succ hlt)
        simpa using this)
      (by simpa using hget)

/-- Unfolding the notification total fold. -/
theorem specialTotalRecords_foldl :
    ∀ (rs : List CollectionResult) (acc : Nat),
      rs.foldl (fun a r => if r.success then a + r.today_count else a) acc
        = acc + ((rs.filter (fun r => r.success)).map (fun r => r.today_count)).sum
  | [], acc => by simp
  | r :: rs, acc => by
    by_cases h : r.success
    · simp [List.foldl_cons, h, specialTotalRecords_foldl rs, List.filter_cons,
        Nat.add_assoc]
    · simp [List.foldl_cons, h, specialTotalRecords_foldl rs, List.filter_cons]

/-- Every (collection, chain) pair yields exactly one row, whatever the
failure configuration: the general batch is never aborted. -/
theorem generalBatch_length (chains : List String) (localOff : Int)
    (ff cf : String → String → Bool) :
    ∀ colls : List (String × List Record),
      (generalBatch colls chains localOff ff cf).length
        = colls.length * chains.length
  | [] => by simp [generalBatch]
  | col :: colls => by
    have ih := generalBatch_length chains localOff ff cf colls
    simp only [generalBatch] at ih ⊢
    simp only [List.map_cons, List.flatten_cons, List.length_append,
      List.length_map, ih, List.length_cons]
    ring

/-- Every (collection, chain) pair yields exactly one strict validation
result: the strict batch is never aborted. -/
theorem validateAllChains_length (chains : List String) (now : Int) :
    ∀ colls : List (String × List Record),
      (validateAllChainsTodayData colls chains now).length
        = colls.length * chains.length
  | [] => by simp [validateAllChainsTodayData]
  | col :: colls => by
    have ih := validateAllChains_length chains now colls
    simp only [validateAllChainsTodayData] at ih ⊢
    simp only [List.map_cons, List.flatten_cons, List.length_append,
      List.length_map, ih, List.length_cons]
    ring

/-- The inclusive query window `[today_start_utc, today_end_utc]` contains
exactly the instants whose Asia/Shanghai civil date equals the civil date
of `now`. -/
theorem todayWindow_mem_iff (t now : Int) :
    (todayStartUTC now ≤ t ∧ t ≤ todayEndUTC now) ↔
      civilDateCST t = civilDateCST now := by
  simp only [todayStartUTC, todayEndUTC, civilDateCST, civilDate, cstOffset,
    usecPerDay, usecPerHour]
  omega

/-- With no record matching the chain filter, the latest-record query
returns nothing. -/
theorem findLatestCreateTime_eq_none (db : List Record) (c : Int)
    (h : ∀ r ∈ db, r.chain_id ≠ c) : findLatestCreateTime db c = none := by
  have hf : chainRecords db c = [] := by
    rw [chainRecords, List.filter_eq_nil_iff]
    intro r hr
    simpa using h r hr
  simp [findLatestCreateTime, findLatestDoc, hf]

/-- With no record matching the chain filter, the today count is zero. -/
theorem todayCount_eq_zero (db : List Record) (c now : Int)
    (h : ∀ r ∈ db, r.chain_id ≠ c) : todayCount db c now = 0 := by
  rw [todayCount, List.countP_eq_zero]
  intro r hr
  simp [h r hr]

/-! ## Claim theorems -/

/-- C1 counterexample: the partition the pipeline evaluates over an empty
collection has an absent latest timestamp; the claim counts that as a
mismatch and hence an anomaly (its General-policy classification is
`LatestNotToday`), but the detection loop emits no anomaly for it. -/
theorem claim_c1_counterexample :
    detectAnomalies [rowFromEval "orders" "1001" [] 0 false false] 20000 [] = [] ∧
    specClassifyGeneral (rowFromEval "orders" "1001" [] 0 false false) 20000 =
      ProblemCategory.latestNotToday := by
  decide

/-- C1 (amended): under the General policy an anomaly is reported for a
partition row exactly when the row is a normal row whose latest timestamp
is present and whose rendered civil date differs from `referenceToday - 1`;
a row with an absent latest timestamp produces no anomaly. -/
theorem claim_c1 (rows : List ResultRow) (y : Int) (m : List (String × String)) :
    (detectAnomalies rows y m).length
      = (rows.filter (fun r => rowAnomalous r y)).length ∧
    ∀ row : ResultRow, detectAnomalies [row] y m = [] ↔ rowAnomalous row y = false := by
  constructor
  · rw [detectAnomalies, foldl_anomalyStep]
    simp
  · intro row
    rw [detectAnomalies, foldl_anomalyStep]
    cases hrow : rowAnomalous row y <;>
      simp [List.filter_cons, hrow]

/-- C2: for every result the strict validator produces, the rendered
classification agrees with the spec's priority classifier: `QueryError`
when the error kind is set, otherwise `NoTodayData` when the strict today
count is zero, otherwise `LatestNotToday` when the latest timestamp is
absent or its civil date differs from the reference day, otherwise no
problem.  In particular a zero today count dominates a same-day latest
timestamp. -/
theorem claim_c2 (db : List Record) (chainIdStr : String) (now : Int) (sf : Bool) :
    classifyStrict (validateCollection db chainIdStr now sf).1
      = specClassifyStrict (validateCollection db chainIdStr now sf).1
          (civilDateCST now) := by
  cases h : parseChainId chainIdStr with
  | none =>
    simp [validateCollection, h, classifyStrict, problemOf, specClassifyStrict]
  | some c =>
    cases sf with
    | true =>
      simp [validateCollection, h, classifyStrict, problemOf, specClassifyStrict]
    | false =>
      simp only [validateCollection, h]
      generalize todayCount db c now = tc
      generalize latestDt (findLatestCreateTime db c) = lt
      rcases lt with _ | t
      · rcases Nat.eq_zero_or_pos tc with h0 | h0
        · simp [classifyStrict, problemOf, specClassifyStrict, strictIsToday, h0]
        · have hne : tc ≠ 0 := Nat.pos_iff_ne_zero.mp h0
          simp [classifyStrict, problemOf, specClassifyStrict, strictIsToday,
            hne, h0]
      · by_cases hc : civilDateCST t = civilDateCST now
        · rcases Nat.eq_zero_or_pos tc with h0 | h0
          · simp [classifyStrict, problemOf, specClassifyStrict, strictIsToday,
              h0, hc]
          · have hne : tc ≠ 0 := Nat.pos_iff_ne_zero.mp h0
            simp [classifyStrict, problemOf, specClassifyStrict, strictIsToday,
              hne, h0, hc]
        · rcases Nat.eq_zero_or_pos tc with h0 | h0
          · simp [classifyStrict, problemOf, specClassifyStrict, strictIsToday,
              h0, hc]
          · have hne : tc ≠ 0 := Nat.pos_iff_ne_zero.mp h0
            simp [classifyStrict, problemOf, specClassifyStrict, strictIsToday,
              hne, h0, hc]

/-- C3: under the strict policy, success is exactly `todayCount > 0 AND
isFreshToday`; the today count is the count over the code's inclusive
UTC-converted window, and that window contains exactly the instants whose
Asia/Shanghai civil date equals the civil date of `now` (so both endpoints
00:00:00.000 and 23:59:59.999999 are inside). -/
theorem claim_c3 (db : List Record) (chainIdStr : String) (c now : Int)
    (h : parseChainId chainIdStr = some c) :
    ((validateCollection db chainIdStr now false).1.success
        = (decide (0 < (validateCollection db chainIdStr now false).1.today_count)
            && (validateCollection db chainIdStr now false).1.is_latest_today)) ∧
    (validateCollection db chainIdStr now false).1.today_count
        = todayCount db c now ∧
    ∀ t : Int, (todayStartUTC now ≤ t ∧ t ≤ todayEndUTC now) ↔
      civilDateCST t = civilDateCST now := by
  refine ⟨?_, ?_, fun t => todayWindow_mem_iff t now⟩
  · simp [validateCollection, h]
  · simp [validateCollection, h]

theorem claim_c3_witness :
    parseChainId "1001" = some 1001 ∧
    (validateCollection [] "1001" 0 false).1.today_count = todayCount [] 1001 0 :=
  ⟨by decide, (claim_c3 [] "1001" 1001 0 (by decide)).2.1⟩

/-- C4 counterexample: a partition whose evaluation failed (its row is an
error row, classification `QueryError`) contributes no anomaly to the
chain's list, contrary to the claim that every non-`None` classification
— including `QueryError` — yields exactly one anomaly. -/
theorem claim_c4_counterexample :
    detectAnomalies [rowFromEval "orders" "1001" [] 0 true false] 20000 [] = [] ∧
    specClassifyGeneral (rowFromEval "orders" "1001" [] 0 true false) 20000 =
      ProblemCategory.queryError := by
  decide

/-- C4 (amended): the chain's anomaly list contains exactly one entry per
normal (non-error) row whose latest timestamp is present and whose
rendered civil date differs from yesterday's — error rows and rows with
an absent timestamp are skipped — with the table id resolved through the
collection-name map and falling back to the raw id; the message shows the
success state exactly when the chain has zero anomalies. -/
theorem claim_c4 (rows : List ResultRow) (y : Int) (m : List (String × String)) :
    detectAnomalies rows y m
      = (rows.filter (fun r => rowAnomalous r y)).map (anomalyOf m) ∧
    (formatChainMessageIsSuccess (detectAnomalies rows y m) = true ↔
      ∀ row ∈ rows, rowAnomalous row y = false) := by
  have he := foldl_anomalyStep y m rows []
  constructor
  · simpa [detectAnomalies] using he
  · rw [formatChainMessageIsSuccess, detectAnomalies, he]
    simp [List.isEmpty_iff, List.filter_eq_nil_iff]

/-- C5: a partition with zero matching records yields an absent latest
timestamp, `isFreshToday = false` and a windowed count of zero (in both
the general path and the strict path, which also counts zero today
records). -/
theorem claim_c5 (db : List Record) (chainIdStr : String) (c now localOff : Int)
    (h : parseChainId chainIdStr = some c) (h2 : ∀ r ∈ db, r.chain_id ≠ c) :
    (evalGeneral db chainIdStr localOff false false).outcome
        = RowOutcome.ok 0 none ∧
    (validateCollection db chainIdStr now false).1.latest_create_time = none ∧
    (validateCollection db chainIdStr now false).1.is_latest_today = false ∧
    (validateCollection db chainIdStr now false).1.today_count = 0 := by
  have hf := findLatestCreateTime_eq_none db c h2
  have ht := todayCount_eq_zero db c now h2
  refine ⟨?_, ?_, ?_, ?_⟩
  · simp [evalGeneral, h, hf]
  · simp [validateCollection, h, hf, latestDt]
  · simp [validateCollection, h, hf, latestDt, strictIsToday]
  · simp [validateCollection, h, ht]

theorem claim_c5_witness :
    parseChainId "1001" = some 1001 ∧
    (evalGeneral [{ chain_id := 2, create_time := none }] "1001" 0 false false).outcome
      = RowOutcome.ok 0 none :=
  ⟨by decide,
    (claim_c5 [{ chain_id := 2, create_time := none }] "1001" 1001 0 0 (by decide)
      (by decide)).1⟩

/-- C6: a partition id that does not parse as an integer returns
immediately with `errorKind = InvalidPartitionKey` and both counts zero,
issues zero storage calls, and the batch continues: every (collection,
chain) pair still yields exactly one result. -/
theorem claim_c6 (db : List Record) (chainIdStr : String) (now localOff : Int)
    (ff cf sf : Bool) (h : parseChainId chainIdStr = none) :
    validateCollection db chainIdStr now sf
      = ({ success := false, error := some ErrKind.invalidChainId,
           today_count := 0, total_count := 0, latest_create_time := none,
           is_latest_today := false }, 0) ∧
    evalGeneral db chainIdStr localOff ff cf
      = { outcome := RowOutcome.err, calls := 0 } ∧
    ∀ (colls : List (String × List Record)) (chains : List String),
      (validateAllChainsTodayData colls chains now).length
        = colls.length * chains.length := by
  refine ⟨?_, ?_, fun colls chains => validateAllChains_length chains now colls⟩
  · simp [validateCollection, h]
  · simp [evalGeneral, h]

theorem claim_c6_witness :
    parseChainId "abc" = none ∧
    validateCollection [] "abc" 0 false
      = ({ success := false, error := some ErrKind.invalidChainId,
           today_count := 0, total_count := 0, latest_create_time := none,
           is_latest_today := false }, 0) :=
  ⟨by decide, (claim_c6 [] "abc" 0 0 false false false (by decide)).1⟩

/-- C7 counterexample: when the windowed `count_documents` call fails, the
count defaults to zero but the partition's row is recorded as a normal
row — no `errorKind` is set — contrary to the claim that every failing
count/find call yields a result with `errorKind = QueryError`. -/
theorem claim_c7_counterexample :
    evalGeneral [{ chain_id := 1001, create_time := some (StoredVal.dt 0) }]
        "1001" 0 false true
      = { outcome := RowOutcome.ok 0 (some 0), calls := 2 } ∧
    (evalGeneral [{ chain_id := 1001, create_time := some (StoredVal.dt 0) }]
        "1001" 0 false true).outcome ≠ RowOutcome.err := by
  decide

/-- C7 (amended): a failure of the windowed-count call is caught at that
call and the count defaults to zero, but the row carries no error marker;
a failure of the latest-record query is caught by the per-partition
handler, which records an error row; in the strict validator any storage
failure produces an error result with `errorKind = QueryError` and both
counts zero; and in every case the remaining partitions are still
evaluated. -/
theorem claim_c7 (db : List Record) (chainIdStr : String) (c : Int)
    (localOff t now : Int) (v : StoredVal)
    (h : parseChainId chainIdStr = some c) :
    (findLatestCreateTime db c = some v → processTime v localOff = some t →
      (evalGeneral db chainIdStr localOff false true).outcome
        = RowOutcome.ok 0 (some t)) ∧
    (∀ cf : Bool, evalGeneral db chainIdStr localOff true cf
        = { outcome := RowOutcome.err, calls := 1 }) ∧
    ((validateCollection db chainIdStr now true).1
        = { success := false, error := some ErrKind.queryError,
            today_count := 0, total_count := 0, latest_create_time := none,
            is_latest_today := false }) ∧
    ∀ (colls : List (String × List Record)) (chains : List String)
      (ff cf : String → String → Bool),
      (generalBatch colls chains localOff ff cf).length
        = colls.length * chains.length := by
  refine ⟨?_, ?_, ?_,
    fun colls chains ff cf => generalBatch_length chains localOff ff cf colls⟩
  · intro hf hp
    simp [evalGeneral, h, hf, hp]
  · intro cf
    simp [evalGeneral, h]
  · simp [validateCollection, h]

theorem claim_c7_witness :
    parseChainId "1001" = some 1001 ∧
    (evalGeneral [{ chain_id := 1001, create_time := some (StoredVal.dt 7) }]
        "1001" 0 false true).outcome = RowOutcome.ok 0 (some 7) :=
  ⟨by decide,
    (claim_c7 [{ chain_id := 1001, create_time := some (StoredVal.dt 7) }]
        "1001" 1001 0 7 0 (StoredVal.dt 7) (by decide)).1 (by decide) (by decide)⟩

/-- C8 counterexample: a stored string timestamp matching none of the
known formats does not produce an error result — the resulting row is a
normal row with count zero and an absent timestamp — contrary to the
claim that the failure is recorded as an error result for the
partition. -/
theorem claim_c8_counterexample :
    evalGeneral [{ chain_id := 1001, create_time := some (StoredVal.str "garbage") }]
        "1001" 0 false false
      = { outcome := RowOutcome.ok 0 none, calls := 1 } ∧
    parseFormats "garbage" = none := by
  decide

/-- C8 (amended): the string formats are tried in order and the first
successful parse wins; a string matching none of the formats makes the
date-processing step fail, which is caught and recorded as a normal row
with count zero and an absent timestamp (not an error result), and the
batch is never aborted. -/
theorem claim_c8 (fs : List (String → Option Int)) (s : String) (i : Nat)
    (hi : i < fs.length) (t : Int) (db : List Record) (chainIdStr : String)
    (c localOff : Int) (sv : String) :
    ((∀ j (hj : j < fs.length), j < i → fs.get ⟨j, hj⟩ s = none) →
      fs.get ⟨i, hi⟩ s = some t → firstSuccess fs s = some t) ∧
    (parseChainId chainIdStr = some c →
      findLatestCreateTime db c = some (StoredVal.str sv) →
      parseFormats sv = none →
      evalGeneral db chainIdStr localOff false false
        = { outcome := RowOutcome.ok 0 none, calls := 1 }) ∧
    ∀ (colls : List (String × List Record)) (chains : List String)
      (ff cf : String → String → Bool),
      (generalBatch colls chains localOff ff cf).length
        = colls.length * chains.length := by
  refine ⟨firstSuccess_of_get fs s i hi t, ?_,
    fun colls chains ff cf => generalBatch_length chains localOff ff cf colls⟩
  intro h hf hp
  simp [evalGeneral, h, hf, processTime, hp]

theorem claim_c8_witness :
    firstSuccess timestampFormats "2025-08-01 12:00:00" = some 1754049600000000 ∧
    evalGeneral [{ chain_id := 1001, create_time := some (StoredVal.str "zzz") }]
        "1001" 0 false false
      = { outcome := RowOutcome.ok 0 none, calls := 1 } :=
  ⟨(claim_c8 timestampFormats "2025-08-01 12:00:00" 1 (by decide)
        1754049600000000 [] "1001" 1001 0 "zzz").1
      (fun j hj hlt => by
        have hj0 : j = 0 := by omega
        subst hj0
        show parseFormat1 "2025-08-01 12:00:00" = none
        decide)
      (by decide),
    (claim_c8 timestampFormats "2025-08-01 12:00:00" 1 (by decide)
        1754049600000000
        [{ chain_id := 1001, create_time := some (StoredVal.str "zzz") }]
        "1001" 1001 0 "zzz").2.1 (by decide) (by decide) (by decide)⟩

/-- C9 counterexample: the same stored instant (18:00 UTC) is assigned the
UTC calendar date by the General path but the Asia/Shanghai calendar date
(one day later) by the Strict path, so the two paths of one run do not
always compute the same civil date. -/
theorem claim_c9_counterexample :
    generalPathCivilDate (20300 * usecPerDay + 18 * usecPerHour)
      ≠ strictPathCivilDate (20300 * usecPerDay + 18 * usecPerHour) := by
  decide

/-- C9 (amended): a stored naive datetime is interpreted as UTC — its
instant is unchanged by normalization — and each path computes its civil
date as a function of that instant; but the General path renders the date
in UTC while the Strict path renders it in Asia/Shanghai, and the two
agree exactly when the instant's UTC time-of-day is before 16:00. -/
theorem claim_c9 (t : Int) (db : List Record) (chainIdStr : String)
    (c now localOff : Int) :
    (generalPathCivilDate t = strictPathCivilDate t ↔
      t % usecPerDay < 16 * usecPerHour) ∧
    processTime (StoredVal.dt t) localOff = some t ∧
    (parseChainId chainIdStr = some c →
      latestDt (findLatestCreateTime db c) = some t →
      (validateCollection db chainIdStr now false).1.is_latest_today
        = decide (strictPathCivilDate t = strictPathCivilDate now)) := by
  refine ⟨?_, rfl, ?_⟩
  · simp only [generalPathCivilDate, strictPathCivilDate, civilDateUTC,
      civilDateCST, civilDate, cstOffset, usecPerDay, usecPerHour]
    omega
  · intro h hl
    simp [validateCollection, h, hl, strictIsToday, strictPathCivilDate]

theorem claim_c9_witness :
    parseChainId "1001" = some 1001 ∧
    (validateCollection [{ chain_id := 1001, create_time := some (StoredVal.dt 7) }]
        "1001" 7 false).1.is_latest_today
      = decide (strictPathCivilDate 7 = strictPathCivilDate 7) :=
  ⟨by decide,
    (claim_c9 7 [{ chain_id := 1001, create_time := some (StoredVal.dt 7) }]
        "1001" 1001 7 0).2.2 (by decide) (by decide)⟩

/-- C10: the strict-notification total equals the sum of `today_count`
over exactly the collection results whose success flag is true; appending
a failed or errored result (success false) never changes the total. -/
theorem claim_c10 (rs : List CollectionResult) :
    specialTotalRecords rs
      = ((rs.filter (fun r => r.success)).map (fun r => r.today_count)).sum ∧
    ∀ r : CollectionResult, r.success = false →
      specialTotalRecords (rs ++ [r]) = specialTotalRecords rs := by
  constructor
  · rw [specialTotalRecords, specialTotalRecords_foldl]
    simp
  · intro r hr
    rw [specialTotalRecords, specialTotalRecords, specialTotalRecords_foldl,
      specialTotalRecords_foldl]
    simp [List.filter_append, List.filter_cons, hr]

theorem claim_c10_witness :
    specialTotalRecords
        ([{ success := true, error := none, today_count := 5, total_count := 5,
            latest_create_time := some 0, is_latest_today := true }] ++
          [{ success := false, error := some ErrKind.queryError, today_count := 0,
             total_count := 0, latest_create_time := none,
             is_latest_today := false }])
      = specialTotalRecords
          [{ success := true, error := none, today_count := 5, total_count := 5,
             latest_create_time := some 0, is_latest_today := true }] :=
  (claim_c10
      [{ success := true, error := none, today_count := 5, total_count := 5,
         latest_create_time := some 0, is_latest_today := true }]).2
    { success := false, error := some ErrKind.queryError, today_count := 0,
      total_count := 0, latest_create_time := none, is_latest_today := false }
    (by decide)

end TuzhanData
